import Mathlib

/-!
Verification development for the connection/correlation engine of the
arcus-mcp-server bridge client (`src/bridge-client.ts`).

The TypeScript class `BridgeClient` is shallowly embedded as a state record
`ClientState` together with pure step functions, one per event handler or
method of the class.  Asynchronous callbacks (promise resolution/rejection,
timer creation/cancellation, transport writes, transport opening, reconnect
scheduling) are represented as explicit effects in an emitted `List Eff`;
a promise's `resolve`/`reject` pair stored in the correlation table is
identified by its correlation id.  `randomUUID()` results and `setTimeout`
handles are nondeterministic inputs and are passed as parameters
(`freshId`, `freshTimer`); `Date.now()` is passed as `now`.  Routine
`log`/`dbg` writes to stderr are not modelled as effects except where a
property is specifically about logging (the active-place restoration
failure handler).  JavaScript `undefined` is modelled by `Option`/a
dedicated `AttrValue.undef` value, and the unchecked TypeScript `as` casts
in the source (which are erased at runtime) are modelled by storing the
looked-up attribute value unchanged.
-/

namespace ArcusBridge

/-- `Place` from bridge-client.ts (the index-signature extras are not
needed by any property and are omitted). -/
structure Place where
  placeId : String
  placeName : String
  accountId : String
  role : String
deriving DecidableEq, Repr

/-- Values stored in a message's `attributes` record
(`Record<string, unknown>` in the source).  `undef` models JavaScript
`undefined`, i.e. a missing property; `placeList` covers the `places`
array of the SessionCreated frame. -/
inductive AttrValue where
  | undef : AttrValue
  | str : String → AttrValue
  | nat : Nat → AttrValue
  | boolV : Bool → AttrValue
  | placeList : List Place → AttrValue
deriving DecidableEq, Repr

/-- A string-keyed attribute record (`Record<string, unknown>`). -/
abbrev Attrs := List (String × AttrValue)

/-- JavaScript property access on an attribute record: the value under the
key, or `undefined` when absent. -/
def lookupA (a : Attrs) (k : String) : AttrValue :=
  match a.find? (fun p => p.1 = k) with
  | some p => p.2
  | none => AttrValue.undef

/-- `BridgeEvent` from bridge-client.ts: one entry of the event buffer. -/
structure BridgeEvent where
  timestamp : Nat
  messageType : String
  source : Option String
  attributes : Attrs
deriving DecidableEq, Repr

/-- `SessionInfo` from bridge-client.ts.  The source populates it by the
unchecked casts `attrs.personId as string` and `attrs.places as Place[]`,
which at runtime store the attribute values unchanged (possibly
`undefined`); the embedding therefore keeps them as `AttrValue`. -/
structure SessionInfo where
  personId : AttrValue
  places : AttrValue
deriving DecidableEq, Repr

/-- `PendingRequest` from bridge-client.ts.  The `resolve`/`reject`
callbacks are identified externally by the correlation id under which the
entry is registered, so only the timer handle is state. -/
structure PendingRequest where
  timer : Nat
deriving DecidableEq, Repr

/-- Message headers (`BridgeMessage.headers`).  The interface declares
`destination`, `correlationId`, `isRequest` plus an index signature;
inbound frames additionally carry `source` (docs/arcus-protocol.md). -/
structure Headers where
  destination : Option String
  correlationId : Option String
  isRequest : Option Bool
  source : Option String
deriving DecidableEq, Repr

/-- Message payload (`BridgeMessage.payload`). -/
structure Payload where
  messageType : String
  attributes : Attrs
deriving DecidableEq, Repr

/-- `BridgeMessage` from bridge-client.ts. -/
structure BridgeMessage where
  type : Option String
  headers : Headers
  payload : Payload
deriving DecidableEq, Repr

/-- `REQUEST_TIMEOUT_MS = 30_000` from bridge-client.ts. -/
def REQUEST_TIMEOUT_MS : Nat := 30000

/-- `MAX_EVENT_BUFFER = 100` from bridge-client.ts. -/
def MAX_EVENT_BUFFER : Nat := 100

/-- `RECONNECT_DELAYS = [1_000, 2_000, 5_000, 10_000, 30_000]`. -/
def RECONNECT_DELAYS : List Nat := [1000, 2000, 5000, 10000, 30000]

/-- `ws` readyState constant `WebSocket.CONNECTING`. -/
def WS_CONNECTING : Nat := 0

/-- `ws` readyState constant `WebSocket.OPEN`. -/
def WS_OPEN : Nat := 1

/-- `ws` readyState constant `WebSocket.CLOSED`. -/
def WS_CLOSED : Nat := 3

/-- Errors thrown or used to reject promises in bridge-client.ts, one
constructor per distinct `new Error(...)` site. -/
inductive BridgeError where
  /-- `Login failed with status ${res.status}` -/
  | loginFailedStatus : Nat → BridgeError
  /-- `Login response did not contain irisAuthToken cookie` -/
  | missingTokenCookie : BridgeError
  /-- `No auth token available. Call login() first.` -/
  | noAuthToken : BridgeError
  /-- `WebSocket is not connected` (thrown synchronously by sendRequest) -/
  | notConnected : BridgeError
  /-- `Request timed out after 30000ms: ${messageType}` -/
  | requestTimeout : String → BridgeError
  /-- `WebSocket closed` (rejection of all pending requests on close) -/
  | wsClosed : BridgeError
  /-- `WebSocket closed before SessionCreated` -/
  | wsClosedBeforeSession : BridgeError
  /-- an underlying transport send error, abstracted by an id -/
  | sendFailure : Nat → BridgeError
deriving DecidableEq, Repr

/-- The `message` string of each error, as produced by the source. -/
def errMessage : BridgeError → String
  | BridgeError.loginFailedStatus s => "Login failed with status " ++ toString s
  | BridgeError.missingTokenCookie => "Login response did not contain irisAuthToken cookie"
  | BridgeError.noAuthToken => "No auth token available. Call login() first."
  | BridgeError.notConnected => "WebSocket is not connected"
  | BridgeError.requestTimeout mt => "Request timed out after 30000ms: " ++ mt
  | BridgeError.wsClosed => "WebSocket closed"
  | BridgeError.wsClosedBeforeSession => "WebSocket closed before SessionCreated"
  | BridgeError.sendFailure n => "send failure " ++ toString n

/-- Observable effects of a handler step: completions of per-request
promises (identified by correlation id), completion of the in-flight
`_doConnect` promise, timer and transport operations, reconnect
scheduling, and log lines (only where a property concerns logging). -/
inductive Eff where
  /-- `entry.resolve(msg)` for the pending request registered under the id -/
  | resolveP : String → BridgeMessage → Eff
  /-- `entry.reject(err)` / `reject(err)` for the pending request under the id -/
  | rejectP : String → BridgeError → Eff
  /-- `resolve(this._session)` of the `_doConnect` promise -/
  | resolveConnect : SessionInfo → Eff
  /-- `reject(err)` of the `_doConnect` promise -/
  | rejectConnect : BridgeError → Eff
  /-- `setTimeout(..., d)` creating timer handle `t` with delay `d` -/
  | setTimer : Nat → Nat → Eff
  /-- `clearTimeout(t)` -/
  | clearTimer : Nat → Eff
  /-- `this.ws.send(JSON.stringify(msg), cb)` -/
  | wsSend : BridgeMessage → Eff
  /-- `new WebSocket(url, ...)` -/
  | openTransport : String → Eff
  /-- `setTimeout(reconnect body, delay)` in `_scheduleReconnect` -/
  | schedule : Nat → Eff
  /-- a `log(...)` line -/
  | logMsg : String → Eff
  /-- an exception escaping the handler (synchronous throw not caught) -/
  | uncaught : BridgeError → Eff
deriving DecidableEq, Repr

/-- The mutable fields of class `BridgeClient`.  `ws` is the readyState
of the current transport handle (`none` = the `null` handle); `wsGen`
counts `new WebSocket` constructions, distinguishing transport objects. -/
structure ClientState where
  ws : Option Nat
  wsGen : Nat
  token : Option String
  pending : List (String × PendingRequest)
  _session : Option SessionInfo
  _activePlaceId : Option String
  _events : List BridgeEvent
  _baseUrl : Option String
  _reconnecting : Bool
  _reconnectAttempt : Nat
  _intentionalClose : Bool
deriving DecidableEq, Repr

/-- `Map.prototype.has` on the correlation table. -/
def hasKey (m : List (String × PendingRequest)) (k : String) : Bool :=
  m.any (fun p => p.1 = k)

/-- `Map.prototype.get` on the correlation table. -/
def getKey (m : List (String × PendingRequest)) (k : String) : Option PendingRequest :=
  match m.find? (fun p => p.1 = k) with
  | some p => some p.2
  | none => none

/-- `Map.prototype.set` on the correlation table: overwrite in place, or
append in insertion order. -/
def setKey (m : List (String × PendingRequest)) (k : String) (v : PendingRequest) :
    List (String × PendingRequest) :=
  if hasKey m k then m.map (fun p => if p.1 = k then (k, v) else p) else m ++ [(k, v)]

/-- `Map.prototype.delete` on the correlation table. -/
def eraseKey (m : List (String × PendingRequest)) (k : String) :
    List (String × PendingRequest) :=
  m.filter (fun p => ¬p.1 = k)

/-- JavaScript truthiness of the `corrId` local in the message handler:
`undefined` and the empty string are falsy. -/
def truthy : Option String → Bool
  | none => false
  | some s => !(s = "")

/-- The event-buffer append step extracted from `bufferEvent`:
`this._events.push(ev)` followed by
`if (length > MAX_EVENT_BUFFER) this._events = this._events.slice(-MAX_EVENT_BUFFER)`.
For a list of length `L > N`, `slice(-N)` keeps the last `N` elements,
i.e. drops `L - N` from the head. -/
def appendEvt (buf : List BridgeEvent) (e : BridgeEvent) : List BridgeEvent :=
  if (buf ++ [e]).length > MAX_EVENT_BUFFER then
    (buf ++ [e]).drop ((buf ++ [e]).length - MAX_EVENT_BUFFER)
  else
    buf ++ [e]

/-- The `BridgeEvent` that `bufferEvent` constructs from an inbound
frame: `timestamp: Date.now()`, `messageType: msg.payload.messageType`,
`source: msg.headers.destination as string | undefined`,
`attributes: msg.payload.attributes`.  Note the source code reads
`headers.destination`, not `headers.source`. -/
def mkBufferedEvent (msg : BridgeMessage) (now : Nat) : BridgeEvent :=
  { timestamp := now
    messageType := msg.payload.messageType
    source := msg.headers.destination
    attributes := msg.payload.attributes }

/-- `bufferEvent(msg)` as a state transformer. -/
def bufferEventS (s : ClientState) (msg : BridgeMessage) (now : Nat) : ClientState :=
  { s with _events := appendEvt s._events (mkBufferedEvent msg now) }

/-- `drainEvents()`: return the buffer and replace it with `[]`. -/
def drainEvents (s : ClientState) : List BridgeEvent × ClientState :=
  (s._events, { s with _events := [] })

/-- `peekEvents()`: return a copy of the buffer (`[...this._events]`),
leaving the state untouched. -/
def peekEvents (s : ClientState) : List BridgeEvent :=
  s._events

/-- The HTTP response observed by `login`: the status code and the
`Set-Cookie` header values (`res.headers.getSetCookie()`). -/
structure LoginResponse where
  status : Nat
  setCookies : List String
deriving DecidableEq, Repr

/-- `Response.ok` of the Fetch API: status in the inclusive range 200-299. -/
def statusOk (status : Nat) : Bool :=
  200 ≤ status && status ≤ 299

/-- Character-list prefix test used to model the regex search. -/
def startsWithChars : List Char → List Char → Bool
  | [], _ => true
  | _ :: _, [] => false
  | p :: ps, c :: cs => p = c && startsWithChars ps cs

/-- The cookie-name literal searched for by `login`. -/
def irisCookieKey : List Char :=
  "irisAuthToken=".toList

/-- The regex `/irisAuthToken=([^;]+)/` applied to one cookie string: the
first occurrence of `irisAuthToken=` followed by at least one non-`;`
character yields the captured run of non-`;` characters. -/
def findIrisToken : List Char → Option String
  | [] => none
  | c :: rest =>
      if startsWithChars irisCookieKey (c :: rest) then
        let tok := ((c :: rest).drop irisCookieKey.length).takeWhile (fun ch => ¬ch = ';')
        if tok.isEmpty then findIrisToken rest else some (String.mk tok)
      else findIrisToken rest

/-- The `for (const cookie of setCookie)` loop of `login`: the first
cookie containing a token match wins. -/
def firstIrisToken : List String → Option String
  | [] => none
  | cookie :: rest =>
      match findIrisToken cookie.toList with
      | some t => some t
      | none => firstIrisToken rest

/-- `login(baseUrl, username, password)` as a function of the single HTTP
response it observes (exactly one `fetch`, no retry loop):
`if (!res.ok && res.status !== 302) throw`, then scan the Set-Cookie
values for `irisAuthToken`, returning the token or throwing. -/
def login (res : LoginResponse) : Except BridgeError String :=
  if !statusOk res.status && !(res.status == 302) then
    Except.error (BridgeError.loginFailedStatus res.status)
  else
    match firstIrisToken res.setCookies with
    | some t => Except.ok t
    | none => Except.error BridgeError.missingTokenCookie

/-- Whether `login` returns normally (rather than throwing). -/
def loginSucceeds (res : LoginResponse) : Bool :=
  match login res with
  | Except.ok _ => true
  | Except.error _ => false

/-- `login` including its state effect `this.token = match[1]`. -/
def loginS (s : ClientState) (res : LoginResponse) :
    Except BridgeError (ClientState × String) :=
  match login res with
  | Except.ok t => Except.ok ({ s with token := some t }, t)
  | Except.error e => Except.error e

/-- The `SessionInfo` built by the SessionCreated handler:
`{ personId: attrs.personId as string, places: attrs.places as Place[] }`
(the casts are erased at runtime, so the attribute values are stored
unchanged). -/
def mkSession (attrs : Attrs) : SessionInfo :=
  { personId := lookupA attrs "personId", places := lookupA attrs "places" }

/-- The outbound frame built by `sendRequest`. -/
def mkRequestMsg (destination messageType : String) (attributes : Attrs)
    (correlationId : String) : BridgeMessage :=
  { type := some messageType
    headers :=
      { destination := some destination
        correlationId := some correlationId
        isRequest := some true
        source := none }
    payload := { messageType := messageType, attributes := attributes } }

/-- `sendRequest(destination, messageType, attributes)` up to the point
where the returned promise is outstanding: throws `notConnected` when the
transport is absent or not OPEN; otherwise creates the timeout timer,
registers the PendingRequest under the fresh correlation id, and writes
the frame.  `freshId` is the `randomUUID()` result, `freshTimer` the
`setTimeout` handle. -/
def sendRequest (s : ClientState) (freshId : String) (freshTimer : Nat)
    (destination messageType : String) (attributes : Attrs) :
    Except BridgeError (ClientState × List Eff) :=
  if !(s.ws == some WS_OPEN) then Except.error BridgeError.notConnected
  else
    Except.ok
      ({ s with pending := setKey s.pending freshId { timer := freshTimer } },
       [Eff.setTimer freshTimer REQUEST_TIMEOUT_MS,
        Eff.wsSend (mkRequestMsg destination messageType attributes freshId)])

/-- The timeout callback that `sendRequest` registers for a request
(captured `correlationId` and `messageType`):
`this.pending.delete(correlationId); reject(RequestTimeout)`. -/
def timeoutFire (s : ClientState) (correlationId messageType : String) :
    ClientState × List Eff :=
  ({ s with pending := eraseKey s.pending correlationId },
   [Eff.rejectP correlationId (BridgeError.requestTimeout messageType)])

/-- The `ws.send` completion callback of `sendRequest` (captured `timer`
and `correlationId`): on a send error, cancel the timer, remove the
pending entry and reject with that error; on success, do nothing. -/
def sendCallback (s : ClientState) (correlationId : String) (timer : Nat)
    (err : Option BridgeError) : ClientState × List Eff :=
  match err with
  | some e =>
      ({ s with pending := eraseKey s.pending correlationId },
       [Eff.clearTimer timer, Eff.rejectP correlationId e])
  | none => (s, [])

/-- The fulfillment continuation of the active-place restore request
issued after reconnect (a `log` call only). -/
def restoreActivePlaceOnSuccess : List Eff :=
  [Eff.logMsg "Active place restored after reconnect"]

/-- The rejection continuation of the active-place restore request issued
after reconnect: the failure is logged only — it is neither re-thrown nor
propagated to the `_doConnect` promise (which has already resolved). -/
def restoreActivePlaceOnFailure (err : BridgeError) : List Eff :=
  [Eff.logMsg ("Failed to restore active place: " ++ errMessage err)]

/-- The `message` handler installed by `_doConnect`.  `settled` is the
handler closure's flag guarding the one-shot settlement of the
`_doConnect` promise.  The SessionCreated branch (when not settled) sets
`settled`, replaces the session, fire-and-forgets a
`sess:SetActivePlace` request when reconnecting with an active place,
clears `_reconnecting` and resolves the connect promise.  Every other
frame is routed by correlation id: a truthy `correlationId` with a
registered PendingRequest (`pending.has`/`pending.get`, modelled by
`getKey`) is delivered to it after cancelling its timer and removing the
entry; anything else goes to `bufferEvent`. -/
def handleMessage (s : ClientState) (settled : Bool) (msg : BridgeMessage)
    (now : Nat) (freshId : String) (freshTimer : Nat) :
    ClientState × Bool × List Eff :=
  if (msg.payload.messageType == "SessionCreated") && !settled then
    let session := mkSession msg.payload.attributes
    let s1 := { s with _session := some session }
    match s1._reconnecting, s1._activePlaceId with
    | true, some placeId =>
        match sendRequest s1 freshId freshTimer "SERV:sess:" "sess:SetActivePlace"
            [("placeId", AttrValue.str placeId)] with
        | Except.ok (s2, sendEffs) =>
            ({ s2 with _reconnecting := false }, true,
             sendEffs ++ [Eff.resolveConnect session])
        | Except.error e =>
            (s1, true, [Eff.uncaught e])
    | _, _ =>
        ({ s1 with _reconnecting := false }, true, [Eff.resolveConnect session])
  else
    if truthy msg.headers.correlationId then
      let corrId := msg.headers.correlationId.getD ""
      match getKey s.pending corrId with
      | some entry =>
          ({ s with pending := eraseKey s.pending corrId }, settled,
           [Eff.clearTimer entry.timer, Eff.resolveP corrId msg])
      | none => (bufferEventS s msg now, settled, [])
    else
      (bufferEventS s msg now, settled, [])

/-- `_scheduleReconnect()`: pick the delay from the saturating backoff
table, advance the attempt counter, mark reconnecting, schedule. -/
def scheduleReconnect (s : ClientState) : ClientState × List Eff :=
  let idx := min s._reconnectAttempt (RECONNECT_DELAYS.length - 1)
  let delay := RECONNECT_DELAYS.getD idx 0
  ({ s with _reconnectAttempt := s._reconnectAttempt + 1, _reconnecting := true },
   [Eff.schedule delay])

/-- The `close` handler installed by `_doConnect`: cancel every pending
timer and reject every pending request with the `WebSocket closed` error,
emptying the table; reject the connect promise if not yet settled; clear
the session; schedule a reconnect unless intentionally closed (and the
endpoint and token are known).  The event buffer is not touched. -/
def handleClose (s : ClientState) (settled : Bool) : ClientState × Bool × List Eff :=
  let rejectEffs :=
    (s.pending.map
      (fun p => [Eff.clearTimer p.2.timer, Eff.rejectP p.1 BridgeError.wsClosed])).flatten
  let connectEffs :=
    if settled then [] else [Eff.rejectConnect BridgeError.wsClosedBeforeSession]
  let s1 := { s with ws := some WS_CLOSED, pending := [], _session := none }
  if !s1._intentionalClose && s1._baseUrl.isSome && s1.token.isSome then
    let r := scheduleReconnect s1
    (r.1, true, rejectEffs ++ connectEffs ++ r.2)
  else
    (s1, true, rejectEffs ++ connectEffs)

/-- The `open` handler installed by `_doConnect`: the transport reaches
OPEN and the backoff counter resets. -/
def handleOpen (s : ClientState) : ClientState :=
  { s with ws := some WS_OPEN, _reconnectAttempt := 0 }

/-- `this._baseUrl!.replace(/^http/, "ws")`: when the URL starts with
the four characters `http`, replace them with `ws` (so `http://…` ↦
`ws://…` and `https://…` ↦ `wss://…`); otherwise leave it unchanged. -/
def replaceHttpWithWs (u : String) : String :=
  if startsWithChars "http".toList u.toList then
    "ws" ++ String.mk (u.toList.drop 4)
  else u

/-- The synchronous part of `_doConnect()`: unconditionally construct a
fresh `WebSocket` (readyState CONNECTING, a new transport generation) on
the derived `/androidbus` URL.  The non-null assertion on `_baseUrl` is
modelled by `Option.getD`. -/
def doConnect (s : ClientState) : ClientState × List Eff :=
  let wsUrl := replaceHttpWithWs (s._baseUrl.getD "") ++ "/androidbus"
  ({ s with ws := some WS_CONNECTING, wsGen := s.wsGen + 1 },
   [Eff.openTransport wsUrl])

/-- `connect(baseUrl, token?)`: resolve the token (`token ?? this.token`,
throwing when neither is available), store the endpoint and token, clear
the intentional-close flag, and delegate to `_doConnect` — with no check
of any existing connection. -/
def connect (s : ClientState) (baseUrl : String) (tokenArg : Option String) :
    Except BridgeError (ClientState × List Eff) :=
  let authToken := match tokenArg with | some t => some t | none => s.token
  match authToken with
  | none => Except.error BridgeError.noAuthToken
  | some t =>
      Except.ok (doConnect
        { s with _baseUrl := some baseUrl, token := some t, _intentionalClose := false })

/-- `disconnect()`: set the intentional-close flag, close and null the
transport handle, clear the session. -/
def disconnect (s : ClientState) : ClientState :=
  { s with _intentionalClose := true, ws := none, _session := none }

/-- Keep only the last `MAX_EVENT_BUFFER` elements of a list. -/
def dropToCap (l : List BridgeEvent) : List BridgeEvent :=
  l.drop (l.length - MAX_EVENT_BUFFER)

theorem appendEvt_eq_dropToCap (buf : List BridgeEvent) (e : BridgeEvent) :
    appendEvt buf e = dropToCap (buf ++ [e]) := by
  unfold appendEvt dropToCap
  by_cases h : (buf ++ [e]).length > MAX_EVENT_BUFFER
  · rw [if_pos h]
  · rw [if_neg h, Nat.sub_eq_zero_of_le (Nat.le_of_not_lt h), List.drop_zero]

theorem dropToCap_append (l m : List BridgeEvent) :
    dropToCap (dropToCap l ++ m) = dropToCap (l ++ m) := by
  unfold dropToCap
  rw [List.drop_append_eq_append_drop, List.drop_drop,
    @List.drop_append_eq_append_drop _ l m _]
  simp only [List.length_append, List.length_drop]
  congr 1 <;> first
    | rfl
    | (congr 1; omega)

theorem foldl_appendEvt_cons (buf : List BridgeEvent) (e : BridgeEvent)
    (es : List BridgeEvent) :
    List.foldl appendEvt buf (e :: es) = dropToCap (buf ++ e :: es) := by
  induction es generalizing buf e with
  | nil => simpa using appendEvt_eq_dropToCap buf e
  | cons e2 es ih =>
      rw [List.foldl_cons, ih (appendEvt buf e) e2, appendEvt_eq_dropToCap,
        dropToCap_append]
      simp

theorem foldl_appendEvt_of_le_cap (buf es : List BridgeEvent)
    (h : buf.length + es.length ≤ MAX_EVENT_BUFFER) :
    List.foldl appendEvt buf es = buf ++ es := by
  cases es with
  | nil => simp
  | cons e es =>
      rw [foldl_appendEvt_cons]
      unfold dropToCap
      have hz : (buf ++ e :: es).length - MAX_EVENT_BUFFER = 0 := by
        simp only [List.length_append, List.length_cons]
        simp only [List.length_cons] at h
        omega
      rw [hz, List.drop_zero]

theorem events_foldl_buffer (s : ClientState) (msgs : List (BridgeMessage × Nat)) :
    (List.foldl (fun st p => bufferEventS st p.1 p.2) s msgs)._events =
      List.foldl appendEvt s._events (msgs.map fun p => mkBufferedEvent p.1 p.2) := by
  induction msgs generalizing s with
  | nil => rfl
  | cons p msgs ih => simpa [bufferEventS] using ih (bufferEventS s p.1 p.2)

theorem foldl_appendEvt_long (buf es : List BridgeEvent) (h : es.length = 150) :
    List.foldl appendEvt buf es = es.drop 50 := by
  cases es with
  | nil => simp at h
  | cons e rest =>
      rw [foldl_appendEvt_cons]
      unfold dropToCap
      rw [List.drop_append_eq_append_drop]
      have hlen : (e :: rest).length = 150 := h
      have hcap : MAX_EVENT_BUFFER = 100 := rfl
      have h1 : buf.length ≤ (buf ++ e :: rest).length - MAX_EVENT_BUFFER := by
        simp only [List.length_append, hlen, hcap]
        omega
      rw [List.drop_eq_nil_of_le h1, List.nil_append]
      congr 1
      simp only [List.length_append, hlen, hcap]
      omega

/-- A client state with all fields at their construction-time values
(`BridgeClient`'s field initializers). -/
def initialClient : ClientState :=
  { ws := none
    wsGen := 0
    token := none
    pending := []
    _session := none
    _activePlaceId := none
    _events := []
    _baseUrl := none
    _reconnecting := false
    _reconnectAttempt := 0
    _intentionalClose := false }

/-- A buffered event value used for concrete instantiations. -/
def sampleEvent : BridgeEvent :=
  { timestamp := 0, messageType := "t", source := none, attributes := [] }

/-- An unsolicited inbound frame (no correlation id) used for concrete
instantiations; its headers carry the originating address in `source`,
as inbound frames do per docs/arcus-protocol.md. -/
def sampleEventMsg : BridgeMessage :=
  { type := none
    headers :=
      { destination := none
        correlationId := none
        isRequest := some false
        source := some "DRIV:dev:abc" }
    payload := { messageType := "base:ValueChange", attributes := [] } }

/-- C5: the Event Buffer append adds to the tail; whenever the size
exceeds the capacity `MAX_EVENT_BUFFER = 100` it evicts from the head
until the size equals the capacity; and for any starting buffer,
appending 150 events leaves exactly the last 100 appended events, in
arrival order, as observed by `peekEvents` (150 - 50 = 100 events
remain, namely `drop 50` of the appended sequence). -/
theorem c5_buffer_append_evicts_head :
    MAX_EVENT_BUFFER = 100 ∧
    (∀ (buf : List BridgeEvent) (e : BridgeEvent),
      ((buf ++ [e]).length ≤ MAX_EVENT_BUFFER → appendEvt buf e = buf ++ [e]) ∧
      ((buf ++ [e]).length > MAX_EVENT_BUFFER →
        appendEvt buf e = (buf ++ [e]).drop ((buf ++ [e]).length - MAX_EVENT_BUFFER) ∧
        (appendEvt buf e).length = MAX_EVENT_BUFFER)) ∧
    (∀ (s : ClientState) (msgs : List (BridgeMessage × Nat)),
      msgs.length = 150 →
      peekEvents (List.foldl (fun st p => bufferEventS st p.1 p.2) s msgs) =
        (msgs.map fun p => mkBufferedEvent p.1 p.2).drop 50) := by
  refine ⟨rfl, fun buf e => ⟨fun hle => ?_, fun hgt => ⟨?_, ?_⟩⟩, fun s msgs h => ?_⟩
  · unfold appendEvt
    rw [if_neg (Nat.not_lt.mpr hle)]
  · unfold appendEvt
    rw [if_pos hgt]
  · unfold appendEvt
    rw [if_pos hgt]
    simp only [List.length_drop]
    simp only [List.length_append, List.length_cons, List.length_nil] at hgt ⊢
    have hcap : MAX_EVENT_BUFFER = 100 := rfl
    rw [hcap] at hgt ⊢
    omega
  · show (List.foldl (fun st p => bufferEventS st p.1 p.2) s msgs)._events = _
    rw [events_foldl_buffer]
    exact foldl_appendEvt_long s._events _ (by simpa using h)

/-- Witness for C5 at a concrete input: a buffer of 100 events plus one
append evicts to 100, and 150 concrete appends leave the last 100. -/
theorem c5_buffer_append_evicts_head_witness :
    ((List.replicate 100 sampleEvent ++ [sampleEvent]).length > MAX_EVENT_BUFFER) ∧
    (appendEvt (List.replicate 100 sampleEvent) sampleEvent).length = MAX_EVENT_BUFFER ∧
    (List.replicate 150 ((sampleEventMsg, 0) : BridgeMessage × Nat)).length = 150 ∧
    peekEvents
      (List.foldl (fun st p => bufferEventS st p.1 p.2) initialClient
        (List.replicate 150 ((sampleEventMsg, 0) : BridgeMessage × Nat))) =
      ((List.replicate 150 ((sampleEventMsg, 0) : BridgeMessage × Nat)).map
        fun p => mkBufferedEvent p.1 p.2).drop 50 := by
  have hgt : (List.replicate 100 sampleEvent ++ [sampleEvent]).length > MAX_EVENT_BUFFER := by
    simp [MAX_EVENT_BUFFER]
  have hlen : (List.replicate 150 ((sampleEventMsg, 0) : BridgeMessage × Nat)).length = 150 := by
    simp
  exact ⟨hgt,
    ((c5_buffer_append_evicts_head.2.1 (List.replicate 100 sampleEvent) sampleEvent).2 hgt).2,
    hlen,
    c5_buffer_append_evicts_head.2.2 initialClient _ hlen⟩

/-- C6: `drainEvents` returns the whole buffer in arrival order and
empties it in the same step (atomically in the sequential embedding);
`peekEvents` is a non-mutating snapshot (a pure function of the state
returning the buffer); hence a drain followed immediately by a peek
yields `[]`, and events appended between two drains appear exactly in
the later drain: the first drain returns precisely the events buffered
before it, and the second drain returns precisely the events appended
after the first (no loss, no duplication). -/
theorem c6_drain_then_peek_empty (s : ClientState) (msgs : List (BridgeMessage × Nat))
    (h : msgs.length ≤ MAX_EVENT_BUFFER) :
    (drainEvents s).1 = s._events ∧
    ((drainEvents s).2)._events = [] ∧
    peekEvents (drainEvents s).2 = [] ∧
    (∀ t : ClientState, peekEvents t = t._events) ∧
    (drainEvents
        (List.foldl (fun st p => bufferEventS st p.1 p.2) (drainEvents s).2 msgs)).1 =
      msgs.map fun p => mkBufferedEvent p.1 p.2 := by
  refine ⟨rfl, rfl, rfl, fun t => rfl, ?_⟩
  show (List.foldl (fun st p => bufferEventS st p.1 p.2) (drainEvents s).2 msgs)._events = _
  rw [events_foldl_buffer]
  have : ((drainEvents s).2)._events = [] := rfl
  rw [this]
  have happ := foldl_appendEvt_of_le_cap [] (msgs.map fun p => mkBufferedEvent p.1 p.2)
    (by simpa using h)
  simpa using happ

/-- Witness for C6 at a concrete input: one event in the buffer before
the first drain, one appended in between. -/
theorem c6_drain_then_peek_empty_witness :
    ([((sampleEventMsg, 7) : BridgeMessage × Nat)].length ≤ MAX_EVENT_BUFFER) ∧
    (drainEvents { initialClient with _events := [sampleEvent] }).1 = [sampleEvent] ∧
    peekEvents (drainEvents { initialClient with _events := [sampleEvent] }).2 = [] ∧
    (drainEvents
        (List.foldl (fun st p => bufferEventS st p.1 p.2)
          (drainEvents { initialClient with _events := [sampleEvent] }).2
          [((sampleEventMsg, 7) : BridgeMessage × Nat)])).1 =
      [mkBufferedEvent sampleEventMsg 7] := by
  have h : ([((sampleEventMsg, 7) : BridgeMessage × Nat)].length ≤ MAX_EVENT_BUFFER) := by
    simp [MAX_EVENT_BUFFER]
  have := c6_drain_then_peek_empty { initialClient with _events := [sampleEvent] }
    [((sampleEventMsg, 7) : BridgeMessage × Nat)] h
  exact ⟨h, this.1, this.2.2.1, by simpa using this.2.2.2.2⟩

theorem getKey_cons (p : String × PendingRequest) (m : List (String × PendingRequest))
    (k : String) :
    getKey (p :: m) k = if p.1 = k then some p.2 else getKey m k := by
  unfold getKey
  rw [List.find?_cons]
  by_cases h : p.1 = k
  · simp [h]
  · simp [h]

theorem eraseKey_cons (p : String × PendingRequest) (m : List (String × PendingRequest))
    (c : String) :
    eraseKey (p :: m) c = if p.1 = c then eraseKey m c else p :: eraseKey m c := by
  unfold eraseKey
  rw [List.filter_cons]
  by_cases h : p.1 = c
  · simp [h]
  · simp [h]

theorem getKey_eraseKey (m : List (String × PendingRequest)) (k : String) :
    getKey (eraseKey m k) k = none := by
  induction m with
  | nil => rfl
  | cons p m ih =>
      rw [eraseKey_cons]
      by_cases h : p.1 = k
      · rw [if_pos h]; exact ih
      · rw [if_neg h, getKey_cons, if_neg h]; exact ih

theorem getKey_eraseKey_ne (m : List (String × PendingRequest)) (c k : String)
    (h : ¬k = c) : getKey (eraseKey m c) k = getKey m k := by
  induction m with
  | nil => rfl
  | cons p m ih =>
      rw [eraseKey_cons, getKey_cons]
      by_cases hp : p.1 = c
      · rw [if_pos hp]
        have hpk : ¬p.1 = k := fun hk => h (hk.symm.trans hp)
        rw [if_neg hpk]
        exact ih
      · rw [if_neg hp, getKey_cons]
        by_cases hk : p.1 = k
        · rw [if_pos hk, if_pos hk]
        · rw [if_neg hk, if_neg hk]; exact ih

theorem handleMessage_matched (s : ClientState) (msg : BridgeMessage) (now : Nat)
    (fid : String) (ft : Nat) (corrId : String) (entry : PendingRequest)
    (hc : msg.headers.correlationId = some corrId) (hne : ¬corrId = "")
    (hg : getKey s.pending corrId = some entry) :
    handleMessage s true msg now fid ft =
      ({ s with pending := eraseKey s.pending corrId }, true,
       [Eff.clearTimer entry.timer, Eff.resolveP corrId msg]) := by
  simp [handleMessage, hc, truthy, hne, hg]

theorem handleMessage_unmatched (s : ClientState) (msg : BridgeMessage) (now : Nat)
    (fid : String) (ft : Nat)
    (h : truthy msg.headers.correlationId = false ∨
      getKey s.pending (msg.headers.correlationId.getD "") = none) :
    handleMessage s true msg now fid ft = (bufferEventS s msg now, true, []) := by
  rcases h with h | h
  · simp [handleMessage, h]
  · by_cases ht : truthy msg.headers.correlationId
    · simp [handleMessage, ht, h]
    · simp [handleMessage, ht]

/-- C1: an inbound frame received while connected (the `_doConnect`
promise already settled) whose correlation id matches a registered
PendingRequest is delivered to that request's completion exactly once
(the singleton `resolveP` effect), with the entry removed from the
correlation table and its timeout timer cancelled; any other frame (no
correlation id — `undefined` or the falsy empty string — or no matching
entry) is appended to the Event Buffer.  Registered correlation ids are
`randomUUID()` values, hence nonempty. -/
theorem c1_frame_classification :
    (∀ (s : ClientState) (msg : BridgeMessage) (now : Nat) (fid : String) (ft : Nat)
        (corrId : String) (entry : PendingRequest),
      msg.headers.correlationId = some corrId →
      ¬corrId = "" →
      getKey s.pending corrId = some entry →
      handleMessage s true msg now fid ft =
        ({ s with pending := eraseKey s.pending corrId }, true,
         [Eff.clearTimer entry.timer, Eff.resolveP corrId msg])) ∧
    (∀ (s : ClientState) (msg : BridgeMessage) (now : Nat) (fid : String) (ft : Nat),
      (truthy msg.headers.correlationId = false ∨
        getKey s.pending (msg.headers.correlationId.getD "") = none) →
      handleMessage s true msg now fid ft = (bufferEventS s msg now, true, [])) :=
  ⟨fun s msg now fid ft corrId entry hc hne hg =>
      handleMessage_matched s msg now fid ft corrId entry hc hne hg,
   fun s msg now fid ft h => handleMessage_unmatched s msg now fid ft h⟩

/-- A state with one registered PendingRequest under correlation id
`"c1"` with timer handle 7, over an OPEN transport. -/
def pendingClient : ClientState :=
  { initialClient with
      ws := some WS_OPEN
      pending := [("c1", { timer := 7 })] }

/-- A correlated inbound response frame for correlation id `"c1"`. -/
def sampleRespMsg : BridgeMessage :=
  { type := none
    headers :=
      { destination := none
        correlationId := some "c1"
        isRequest := some false
        source := some "SERV:sess:" }
    payload := { messageType := "sess:SetActivePlaceResponse", attributes := [] } }

/-- Witness for C1 at concrete inputs: the matching frame is delivered
and the table emptied; the uncorrelated frame is buffered. -/
theorem c1_frame_classification_witness :
    sampleRespMsg.headers.correlationId = some "c1" ∧
    getKey pendingClient.pending "c1" = some { timer := 7 } ∧
    handleMessage pendingClient true sampleRespMsg 5 "f" 9 =
      ({ pendingClient with pending := eraseKey pendingClient.pending "c1" }, true,
       [Eff.clearTimer 7, Eff.resolveP "c1" sampleRespMsg]) ∧
    handleMessage pendingClient true sampleEventMsg 5 "f" 9 =
      (bufferEventS pendingClient sampleEventMsg 5, true, []) := by
  refine ⟨rfl, rfl, ?_, ?_⟩
  · exact c1_frame_classification.1 pendingClient sampleRespMsg 5 "f" 9 "c1"
      { timer := 7 } rfl (by decide) rfl
  · exact c1_frame_classification.2 pendingClient sampleEventMsg 5 "f" 9 (Or.inl rfl)

/-- C2: on unplanned transport closure, every outstanding PendingRequest
fails with the `WebSocket closed` (ConnectionLost) error, with its timer
cancelled; the correlation table is empty immediately afterward; the
session is cleared; and the event buffer is untouched by the
transition. -/
theorem c2_close_rejects_all_pending :
    ∀ (s : ClientState) (settled : Bool),
      ((handleClose s settled).1).pending = [] ∧
      ((handleClose s settled).1)._session = none ∧
      ((handleClose s settled).1)._events = s._events ∧
      (∀ p ∈ s.pending,
        Eff.clearTimer p.2.timer ∈ (handleClose s settled).2.2 ∧
        Eff.rejectP p.1 BridgeError.wsClosed ∈ (handleClose s settled).2.2) := by
  intro s settled
  refine ⟨?_, ?_, ?_, ?_⟩
  · simp only [handleClose, scheduleReconnect]
    split_ifs <;> rfl
  · simp only [handleClose, scheduleReconnect]
    split_ifs <;> rfl
  · simp only [handleClose, scheduleReconnect]
    split_ifs <;> rfl
  · intro p hp
    have hmem : ∀ e ∈ [Eff.clearTimer p.2.timer, Eff.rejectP p.1 BridgeError.wsClosed],
        e ∈ ((s.pending.map
          (fun q => [Eff.clearTimer q.2.timer,
            Eff.rejectP q.1 BridgeError.wsClosed])).flatten) := by
      intro e he
      exact List.mem_flatten.mpr ⟨_, List.mem_map_of_mem _ hp, he⟩
    constructor <;>
      · simp only [handleClose, scheduleReconnect]
        split_ifs <;>
          · refine List.mem_append_left _ ?_
            first
              | exact hmem _ (by simp)
              | exact List.mem_append_left _ (hmem _ (by simp))

/-- A state with two registered PendingRequests `A` and `B`, an OPEN
transport and one buffered event, matching the spec scenario of a
mid-flight close. -/
def twoPendingClient : ClientState :=
  { initialClient with
      ws := some WS_OPEN
      token := some "tok"
      _baseUrl := some "http://h"
      _events := [sampleEvent]
      pending := [("A", { timer := 1 }), ("B", { timer := 2 })] }

/-- Witness for C2 at a concrete input: both outstanding requests A and
B are rejected with the connection-lost error, the table is emptied and
the buffer untouched. -/
theorem c2_close_rejects_all_pending_witness :
    (("A", ({ timer := 1 } : PendingRequest)) ∈ twoPendingClient.pending) ∧
    (("B", ({ timer := 2 } : PendingRequest)) ∈ twoPendingClient.pending) ∧
    ((handleClose twoPendingClient true).1).pending = [] ∧
    ((handleClose twoPendingClient true).1)._events = twoPendingClient._events ∧
    Eff.rejectP "A" BridgeError.wsClosed ∈ (handleClose twoPendingClient true).2.2 ∧
    Eff.rejectP "B" BridgeError.wsClosed ∈ (handleClose twoPendingClient true).2.2 := by
  have hA : (("A", ({ timer := 1 } : PendingRequest)) ∈ twoPendingClient.pending) := by
    decide
  have hB : (("B", ({ timer := 2 } : PendingRequest)) ∈ twoPendingClient.pending) := by
    decide
  have h := c2_close_rejects_all_pending twoPendingClient true
  exact ⟨hA, hB, h.1, h.2.2.1, (h.2.2.2 _ hA).2, (h.2.2.2 _ hB).2⟩

/-- C3: the request timeout is the fixed 30 000 ms constant; when the
timeout callback for a request fires, that request is rejected with the
RequestTimeout error and its entry is removed from the correlation
table; a frame arriving afterwards with that correlation id is appended
to the Event Buffer as an unmatched event and delivered to no caller
(no completion effect is emitted). -/
theorem c3_timeout_then_late_frame_buffered :
    REQUEST_TIMEOUT_MS = 30000 ∧
    (∀ (s : ClientState) (corrId msgType : String),
      timeoutFire s corrId msgType =
        ({ s with pending := eraseKey s.pending corrId },
         [Eff.rejectP corrId (BridgeError.requestTimeout msgType)]) ∧
      getKey ((timeoutFire s corrId msgType).1).pending corrId = none) ∧
    (∀ (s : ClientState) (corrId msgType : String) (msg : BridgeMessage)
        (now : Nat) (fid : String) (ft : Nat),
      msg.headers.correlationId = some corrId →
      handleMessage ((timeoutFire s corrId msgType).1) true msg now fid ft =
        (bufferEventS ((timeoutFire s corrId msgType).1) msg now, true, [])) := by
  refine ⟨rfl, fun s corrId msgType => ⟨rfl, getKey_eraseKey _ _⟩,
    fun s corrId msgType msg now fid ft hc => ?_⟩
  apply handleMessage_unmatched
  refine Or.inr ?_
  simp only [hc, Option.getD_some]
  exact getKey_eraseKey _ _

/-- Witness for C3 at concrete inputs: the pending request for `"c1"`
times out and is removed; the late response frame for `"c1"` is then
buffered, with no completion effect. -/
theorem c3_timeout_then_late_frame_buffered_witness :
    sampleRespMsg.headers.correlationId = some "c1" ∧
    getKey ((timeoutFire pendingClient "c1" "place:ListDevices").1).pending "c1" = none ∧
    handleMessage ((timeoutFire pendingClient "c1" "place:ListDevices").1) true
        sampleRespMsg 5 "f" 9 =
      (bufferEventS ((timeoutFire pendingClient "c1" "place:ListDevices").1)
        sampleRespMsg 5, true, []) := by
  exact ⟨rfl,
    (c3_timeout_then_late_frame_buffered.2.1 pendingClient "c1" "place:ListDevices").2,
    c3_timeout_then_late_frame_buffered.2.2 pendingClient "c1" "place:ListDevices"
      sampleRespMsg 5 "f" 9 rfl⟩

/-- C10: when the transport write reports a send error, the request's
promise is rejected with that error, its timeout timer is cancelled and
its PendingRequest entry is removed, leaving no entry under that
correlation id while every other entry is untouched. -/
theorem c10_send_error_rejects_and_cleans :
    ∀ (s : ClientState) (corrId : String) (timer : Nat) (e : BridgeError),
      sendCallback s corrId timer (some e) =
        ({ s with pending := eraseKey s.pending corrId },
         [Eff.clearTimer timer, Eff.rejectP corrId e]) ∧
      getKey ((sendCallback s corrId timer (some e)).1).pending corrId = none ∧
      (∀ k : String, ¬k = corrId →
        getKey ((sendCallback s corrId timer (some e)).1).pending k = getKey s.pending k) :=
  fun s corrId timer e =>
    ⟨rfl, getKey_eraseKey _ _, fun k hk => getKey_eraseKey_ne _ _ _ hk⟩

/-- Witness for C10 at concrete inputs: a failed transmission for
`"c1"` cancels timer 7, rejects with the send error and leaves no entry
for `"c1"`. -/
theorem c10_send_error_rejects_and_cleans_witness :
    sendCallback pendingClient "c1" 7 (some (BridgeError.sendFailure 0)) =
      ({ pendingClient with pending := eraseKey pendingClient.pending "c1" },
       [Eff.clearTimer 7, Eff.rejectP "c1" (BridgeError.sendFailure 0)]) ∧
    getKey ((sendCallback pendingClient "c1" 7
        (some (BridgeError.sendFailure 0))).1).pending "c1" = none ∧
    (¬"other" = "c1") ∧
    getKey ((sendCallback pendingClient "c1" 7
        (some (BridgeError.sendFailure 0))).1).pending "other" =
      getKey pendingClient.pending "other" := by
  have h := c10_send_error_rejects_and_cleans pendingClient "c1" 7 (BridgeError.sendFailure 0)
  exact ⟨h.1, h.2.1, by decide, h.2.2 "other" (by decide)⟩

/-- C7: when a SessionCreated frame settles a reconnect attempt
(`_reconnecting = true`) with an ActivePlace set, the handler issues the
`sess:SetActivePlace` request (timer registration and transport write)
strictly before the `resolveConnect` effect that settles the attempt as
successful — the effect list is exactly
`[setTimer, wsSend SetActivePlace, resolveConnect]` — and the
re-activation's rejection continuation only logs: it emits a single log
effect, never a rejection, so reconnection still completes. -/
theorem c7_reconnect_reissues_place_activation :
    (∀ (s : ClientState) (msg : BridgeMessage) (now : Nat) (fid : String) (ft : Nat)
        (placeId : String),
      s._reconnecting = true →
      s._activePlaceId = some placeId →
      s.ws = some WS_OPEN →
      msg.payload.messageType = "SessionCreated" →
      handleMessage s false msg now fid ft =
        ({ s with
            _session := some (mkSession msg.payload.attributes)
            pending := setKey s.pending fid { timer := ft }
            _reconnecting := false },
         true,
         [Eff.setTimer ft REQUEST_TIMEOUT_MS,
          Eff.wsSend (mkRequestMsg "SERV:sess:" "sess:SetActivePlace"
            [("placeId", AttrValue.str placeId)] fid),
          Eff.resolveConnect (mkSession msg.payload.attributes)])) ∧
    (∀ err : BridgeError,
      restoreActivePlaceOnFailure err =
        [Eff.logMsg ("Failed to restore active place: " ++ errMessage err)]) := by
  constructor
  · intro s msg now fid ft placeId hr ha hw hm
    simp [handleMessage, hm, hr, ha, sendRequest, hw]
  · intro err
    rfl

/-- A client in the middle of a reconnect attempt: transport OPEN again,
`_reconnecting` still set, ActivePlace `"P1"` chosen earlier. -/
def reconClient : ClientState :=
  { initialClient with
      ws := some WS_OPEN
      token := some "tok"
      _baseUrl := some "http://h"
      _reconnecting := true
      _activePlaceId := some "P1" }

/-- The session-announcement frame used for concrete instantiations. -/
def sessionCreatedMsg : BridgeMessage :=
  { type := none
    headers :=
      { destination := none
        correlationId := none
        isRequest := some false
        source := none }
    payload :=
      { messageType := "SessionCreated"
        attributes :=
          [("personId", AttrValue.str "u1"),
           ("places", AttrValue.placeList
             [{ placeId := "P1", placeName := "Home",
                accountId := "acct", role := "OWNER" }])] } }

/-- Witness for C7 at concrete inputs: reconnection with ActivePlace
`"P1"` re-issues `sess:SetActivePlace` before resolving, and a failure
of the re-activation only logs. -/
theorem c7_reconnect_reissues_place_activation_witness :
    reconClient._reconnecting = true ∧
    reconClient._activePlaceId = some "P1" ∧
    sessionCreatedMsg.payload.messageType = "SessionCreated" ∧
    handleMessage reconClient false sessionCreatedMsg 5 "f" 9 =
      ({ reconClient with
          _session := some (mkSession sessionCreatedMsg.payload.attributes)
          pending := setKey reconClient.pending "f" { timer := 9 }
          _reconnecting := false },
       true,
       [Eff.setTimer 9 REQUEST_TIMEOUT_MS,
        Eff.wsSend (mkRequestMsg "SERV:sess:" "sess:SetActivePlace"
          [("placeId", AttrValue.str "P1")] "f"),
        Eff.resolveConnect (mkSession sessionCreatedMsg.payload.attributes)]) ∧
    restoreActivePlaceOnFailure BridgeError.wsClosed =
      [Eff.logMsg ("Failed to restore active place: " ++ errMessage BridgeError.wsClosed)] := by
  exact ⟨rfl, rfl, rfl,
    c7_reconnect_reissues_place_activation.1 reconClient sessionCreatedMsg 5 "f" 9 "P1"
      rfl rfl rfl rfl,
    c7_reconnect_reissues_place_activation.2 BridgeError.wsClosed⟩

/-- A client with an established session over an OPEN transport. -/
def openClient : ClientState :=
  { initialClient with
      ws := some WS_OPEN
      wsGen := 1
      token := some "tok"
      _baseUrl := some "http://h"
      _session := some { personId := AttrValue.str "u1", places := AttrValue.placeList [] } }

/-- C4 counterexample: calling `connect` while the connection is already
Open is not idempotent — at this concrete Open state (transport OPEN,
session present), `connect` performs a new connection exchange: it emits
an `openTransport` effect constructing a fresh WebSocket (new transport
generation, readyState CONNECTING), so the connection state is changed
rather than left untouched, contradicting the claim that no new
transport is opened and the state is unchanged. -/
theorem c4_counterexample_connect_not_idempotent :
    openClient.ws = some WS_OPEN ∧
    openClient._session.isSome = true ∧
    connect openClient "http://h" none =
      Except.ok ({ openClient with ws := some WS_CONNECTING, wsGen := 2 },
        [Eff.openTransport "ws://h/androidbus"]) ∧
    ¬({ openClient with ws := some WS_CONNECTING, wsGen := 2 } = openClient) := by
  refine ⟨rfl, rfl, rfl, by decide⟩

/-- C4 (amended): calling `connect` while the connection is already Open
returns neither early nor the current session: it unconditionally
stores the endpoint and token, clears the intentional-close flag, and
performs a new connection exchange by opening a fresh transport on the
derived `/androidbus` URL (on which a new session exchange must
complete before the returned promise resolves). -/
theorem c4_amended_connect_always_opens_new_transport :
    ∀ (s : ClientState) (baseUrl : String) (t : String),
      s.ws = some WS_OPEN →
      s.token = some t →
      connect s baseUrl none =
        Except.ok
          ({ s with
              _baseUrl := some baseUrl
              token := some t
              _intentionalClose := false
              ws := some WS_CONNECTING
              wsGen := s.wsGen + 1 },
           [Eff.openTransport (replaceHttpWithWs baseUrl ++ "/androidbus")]) := by
  intro s baseUrl t hw ht
  simp [connect, doConnect, ht]

/-- Witness for the amended C4 at the concrete Open state. -/
theorem c4_amended_connect_always_opens_new_transport_witness :
    openClient.ws = some WS_OPEN ∧
    openClient.token = some "tok" ∧
    connect openClient "http://h" none =
      Except.ok
        ({ openClient with
            _baseUrl := some "http://h"
            token := some "tok"
            _intentionalClose := false
            ws := some WS_CONNECTING
            wsGen := 2 },
         [Eff.openTransport (replaceHttpWithWs "http://h" ++ "/androidbus")]) := by
  exact ⟨rfl, rfl,
    c4_amended_connect_always_opens_new_transport openClient "http://h" "tok" rfl rfl⟩

/-- C8 counterexample: status 301 is a 3xx redirect and the
session-token cookie is present, yet `login` fails with the status
error — the source accepts only 2xx (`res.ok`) or exactly 302, not all
2xx/3xx as claimed. -/
theorem c8_counterexample_redirect_301_fails :
    (300 : Nat) ≤ 301 ∧ (301 : Nat) ≤ 399 ∧
    firstIrisToken ["irisAuthToken=abc123; Path=/"] = some "abc123" ∧
    login { status := 301, setCookies := ["irisAuthToken=abc123; Path=/"] } =
      Except.error (BridgeError.loginFailedStatus 301) := by
  refine ⟨by decide, by decide, by decide, rfl⟩

/-- C8 (amended): the login operation performs exactly one HTTP exchange
(the embedding consumes a single response; the source has no retry) and
succeeds returning the cookie token if and only if the response status
is 2xx or exactly 302 AND the session-token cookie is present; on any
other status — including every other 3xx redirect — or when the cookie
is absent, it fails with an error. -/
theorem c8_amended_login_success_iff :
    (∀ res : LoginResponse,
      loginSucceeds res = true ↔
        (((200 ≤ res.status ∧ res.status ≤ 299) ∨ res.status = 302) ∧
          (firstIrisToken res.setCookies).isSome = true)) ∧
    (∀ (res : LoginResponse) (t : String),
      login res = Except.ok t → firstIrisToken res.setCookies = some t) := by
  constructor
  · intro res
    unfold loginSucceeds login statusOk
    by_cases h2 : (200 ≤ res.status ∧ res.status ≤ 299) ∨ res.status = 302
    · have hcond : (!(200 ≤ res.status && res.status ≤ 299) && !(res.status == 302)) = false := by
        rcases h2 with h | h
        · simp [h.1, h.2]
        · simp [h]
      rw [hcond]
      simp only [Bool.false_eq_true, if_false]
      cases hf : firstIrisToken res.setCookies with
      | some t => simp [h2]
      | none => simp [h2]
    · have hcond : (!(200 ≤ res.status && res.status ≤ 299) && !(res.status == 302)) = true := by
        simp only [Bool.and_eq_true, Bool.not_eq_true', Bool.and_eq_false_iff,
          decide_eq_false_iff_not, beq_eq_false_iff_ne, ne_eq]
        omega
      rw [hcond]
      simp [h2]
  · intro res t h
    unfold login at h
    by_cases hcond : (!statusOk res.status && !(res.status == 302)) = true
    · rw [if_pos hcond] at h
      exact absurd h (by simp)
    · rw [if_neg hcond] at h
      cases hf : firstIrisToken res.setCookies with
      | some t2 =>
          rw [hf] at h
          cases h
          rfl
      | none =>
          rw [hf] at h
          exact absurd h (by simp)

/-- Witness for the amended C8 at concrete inputs: a 200 response with
the cookie succeeds with the token. -/
theorem c8_amended_login_success_iff_witness :
    loginSucceeds { status := 200, setCookies := ["irisAuthToken=tok99"] } = true ∧
    firstIrisToken ["irisAuthToken=tok99"] = some "tok99" ∧
    login { status := 200, setCookies := ["irisAuthToken=tok99"] } = Except.ok "tok99" := by
  refine ⟨?_, ?_, rfl⟩
  · exact (c8_amended_login_success_iff.1
      { status := 200, setCookies := ["irisAuthToken=tok99"] }).mpr
      ⟨Or.inl ⟨by decide, by decide⟩, by decide⟩
  · exact c8_amended_login_success_iff.2
      { status := 200, setCookies := ["irisAuthToken=tok99"] } "tok99" rfl

/-- C9 is a code bug in `bufferEvent`: the claim (and the repository's
protocol documentation) says the buffered event records the originating
address carried in the inbound frame's `headers.source` field, but the
source code reads `msg.headers.destination` — a field present only on
outbound frames — so the stored `source` is `undefined` for inbound
traffic.  At the failing input the frame's `headers.source` is
`"DRIV:dev:abc"` yet the stored source is `none`; timestamp, message
type and attributes are stored as the claim says. -/
theorem c9_buffered_event_reads_destination_not_source :
    sampleEventMsg.headers.source = some "DRIV:dev:abc" ∧
    mkBufferedEvent sampleEventMsg 5 =
      { timestamp := 5, messageType := "base:ValueChange",
        source := none, attributes := [] } ∧
    ¬(mkBufferedEvent sampleEventMsg 5).source = sampleEventMsg.headers.source := by
  exact ⟨rfl, rfl, by decide⟩

end ArcusBridge
